import Mathlib

/-!
Verification of the core landmark-stream interpreter of the gesture-files
repository (src/app.js): one-euro filtering, pinch and thumbs-up hysteresis
debouncing, dwell-based hover stabilization, hand-loss grace handling and the
per-frame orchestrator loop.  JavaScript numbers are modelled as real numbers,
landmark arrays as functions from indices to landmarks, the module-level
mutable variables as an explicit state record threaded through each tick, and
the DOM hit-test as an external per-tick input, following the boundary drawn
by the specification.  Discrete open/close actions are modelled as an emitted
event list.
-/

namespace GestureFiles

open Classical

noncomputable section

/-- One MediaPipe landmark: normalized coordinates, z unused by the core. -/
structure Landmark where
  x : ℝ
  y : ℝ
  z : ℝ

/-- A detected hand: landmarks indexed by the fixed anatomical numbering.
Only indices 0..20 are ever consulted by app.js. -/
abbrev HandFrame := ℕ → Landmark

/-- Hover / hit-test target identities: a thumbnail card (carrying its
dataset id) or the viewer close button. -/
inductive Target where
  | thumb (id : String)
  | closeBtn
deriving DecidableEq

/-- classList.contains of the "thumb" class, on the modelled targets. -/
def Target.isThumb : Target → Bool
  | Target.thumb _ => true
  | Target.closeBtn => false

/-- The two UI modes of app.js: mode = "grid" | "viewer". -/
inductive Mode where
  | grid
  | viewer
deriving DecidableEq

/-- The discrete actions the loop performs on the presentation layer:
openFile(el) (logged as OPEN) and closeViewer() (logged as CLOSE). -/
inductive Event where
  | openFile (t : Target)
  | closeViewer
deriving DecidableEq

/-- clamp(v, a, b) = Math.max(a, Math.min(b, v)). -/
def clamp (v a b : ℝ) : ℝ := max a (min b v)

/-- lerp(a, b, t) = a + (b - a) * t. -/
def lerp (a b t : ℝ) : ℝ := a + (b - a) * t

/-- easeOutCubic(t) = 1 - Math.pow(1 - t, 3). -/
def easeOutCubic (t : ℝ) : ℝ := 1 - (1 - t) ^ 3

/-- The OneEuroFilter instance state: the constructor parameters (freq is
mutable and overwritten on each non-first filter call) and the mutable
sample state xPrev / dxPrev / tPrev, null-initialized as in the source. -/
structure OneEuroFilter where
  freq : ℝ
  minCutoff : ℝ
  beta : ℝ
  dCutoff : ℝ
  xPrev : Option ℝ
  dxPrev : ℝ
  tPrev : Option ℝ

/-- new OneEuroFilter(freq, minCutoff, beta, dCutoff). -/
def OneEuroFilter.init (freq minCutoff beta dCutoff : ℝ) : OneEuroFilter :=
  ⟨freq, minCutoff, beta, dCutoff, none, 0, none⟩

/-- alpha(cutoff): te = 1/freq, tau = 1/(2*pi*cutoff), 1/(1 + tau/te). -/
def OneEuroFilter.alpha (f : OneEuroFilter) (cutoff : ℝ) : ℝ :=
  let te := 1 / f.freq
  let tau := 1 / (2 * Real.pi * cutoff)
  1 / (1 + tau / te)

/-- lowpass(prev, curr, a) = prev + a * (curr - prev). -/
def lowpass (prev curr a : ℝ) : ℝ := prev + a * (curr - prev)

/-- filter(x, tMs): first call stores and returns x; later calls update freq
to 1/dt, low-pass the derivative with the dCutoff, adapt the cutoff by
beta * |dxHat| and blend.  Returns the updated filter state and the output.
(When tPrev is set the source has always set xPrev too; the Option.getD 0
default is never reached from the states app.js creates.) -/
def OneEuroFilter.filter (f : OneEuroFilter) (x tMs : ℝ) : OneEuroFilter × ℝ :=
  match f.tPrev with
  | none => ({ f with tPrev := some tMs, xPrev := some x, dxPrev := 0 }, x)
  | some tPrev0 =>
    let dt := max 1e-6 ((tMs - tPrev0) / 1000)
    let f1 := { f with freq := 1 / dt }
    let dx := (x - f.xPrev.getD 0) / dt
    let ad := f1.alpha f1.dCutoff
    let dxHat := lowpass f.dxPrev dx ad
    let cutoff := f1.minCutoff + f1.beta * |dxHat|
    let a := f1.alpha cutoff
    let xHat := lowpass (f.xPrev.getD 0) x a
    ({ f1 with tPrev := some tMs, xPrev := some xHat, dxPrev := dxHat }, xHat)

/-- reset(): clears the sample state back to unset. -/
def OneEuroFilter.reset (f : OneEuroFilter) : OneEuroFilter :=
  { f with xPrev := none, dxPrev := 0, tPrev := none }

/-- PINCH_ON threshold. -/
def PINCH_ON : ℝ := 0.30
/-- PINCH_OFF threshold. -/
def PINCH_OFF : ℝ := 0.60
/-- PINCH_ON_FRAMES. -/
def PINCH_ON_FRAMES : ℕ := 2
/-- PINCH_OFF_FRAMES. -/
def PINCH_OFF_FRAMES : ℕ := 3
/-- THUMBS_ON_FRAMES. -/
def THUMBS_ON_FRAMES : ℕ := 4
/-- THUMBS_OFF_FRAMES. -/
def THUMBS_OFF_FRAMES : ℕ := 4
/-- HAND_LOST_GRACE_MS. -/
def HAND_LOST_GRACE_MS : ℝ := 350
/-- HOVER_DWELL_MS. -/
def HOVER_DWELL_MS : ℝ := 70

/-- distance(a, b) = Math.hypot(a.x - b.x, a.y - b.y). -/
def distance (a b : Landmark) : ℝ :=
  Real.sqrt ((a.x - b.x) ^ 2 + (a.y - b.y) ^ 2)

/-- getHandScaleNorm(landmarks): wrist (0) to index MCP (5) distance,
replaced by 0.0001 when it is not positive. -/
def getHandScaleNorm (lm : HandFrame) : ℝ :=
  let d := distance (lm 0) (lm 5)
  if d > 0 then d else 0.0001

/-- getHandScalePxRaw(landmarks): hand scale times min(viewport w, h). -/
def getHandScalePxRaw (lm : HandFrame) (vw vh : ℝ) : ℝ :=
  getHandScaleNorm lm * min vw vh

/-- screenCoordsFromLandmark: mirrors x and scales to the stage rect. -/
def screenCoordsFromLandmark (l : Landmark) (vw vh : ℝ) : ℝ × ℝ :=
  ((1 - l.x) * vw, l.y * vh)

/-- handScaleToT(hsPx): clamped linear remap between FAR_PX = 40 and
NEAR_PX = 300, then eased. -/
def handScaleToT (hsPx : ℝ) : ℝ :=
  let lin := clamp ((hsPx - 40) / (300 - 40)) 0 1
  easeOutCubic lin

/-- The module-level mutable state of app.js that the core loop reads and
writes: detector debounce counters, mode, hover stabilization state,
selection, hand-loss bookkeeping, the three one-euro filters and the
last published cursor/intensity values. -/
structure AppState where
  pinchClosed : Bool
  pinchOnCount : ℕ
  pinchOffCount : ℕ
  thumbsUpActive : Bool
  thumbsUpOnCount : ℕ
  thumbsUpOffCount : ℕ
  mode : Mode
  lastSeenMs : ℝ
  hoveredEl : Option Target
  hoverCandidate : Option Target
  hoverCandidateSince : ℝ
  selectedEl : Option Target
  wasPinching : Bool
  lastCursorX : ℝ
  lastCursorY : ℝ
  lastT : ℝ
  lastScaleLogAt : ℝ
  xFilter : OneEuroFilter
  yFilter : OneEuroFilter
  scaleFilter : OneEuroFilter

/-- The state after module initialization in app.js. -/
def initialState : AppState where
  pinchClosed := false
  pinchOnCount := 0
  pinchOffCount := 0
  thumbsUpActive := false
  thumbsUpOnCount := 0
  thumbsUpOffCount := 0
  mode := Mode.grid
  lastSeenMs := 0
  hoveredEl := none
  hoverCandidate := none
  hoverCandidateSince := 0
  selectedEl := none
  wasPinching := false
  lastCursorX := 0
  lastCursorY := 0
  lastT := 0
  lastScaleLogAt := 0
  xFilter := OneEuroFilter.init 60 1.0 0.02 1.0
  yFilter := OneEuroFilter.init 60 1.0 0.02 1.0
  scaleFilter := OneEuroFilter.init 60 0.9 0.01 1.0

/-- applyHovered(next): early-returns when unchanged, otherwise swaps the
committed hover target (the class toggling is presentation only). -/
def applyHovered (s : AppState) (next : Option Target) : AppState :=
  if s.hoveredEl = next then s else { s with hoveredEl := next }

/-- stabilizeHover(next, nowMs): a differing raw hit replaces the candidate
and restarts its dwell clock; a raw hit equal to the candidate commits it
once the dwell has elapsed and it differs from the committed target. -/
def stabilizeHover (s : AppState) (next : Option Target) (nowMs : ℝ) : AppState :=
  if next ≠ s.hoverCandidate then
    { s with hoverCandidate := next, hoverCandidateSince := nowMs }
  else if s.hoveredEl ≠ s.hoverCandidate ∧ nowMs - s.hoverCandidateSince ≥ HOVER_DWELL_MS then
    applyHovered s s.hoverCandidate
  else
    s

/-- clearSelected(). -/
def clearSelected (s : AppState) : AppState := { s with selectedEl := none }

/-- openFile(fileEl): shows the viewer and switches mode (the emitted
Event.openFile is produced at the call site in the pinch stage). -/
def openFile (s : AppState) : AppState := { s with mode := Mode.viewer }

/-- closeViewer(): hides the viewer and switches mode back to grid. -/
def closeViewer (s : AppState) : AppState := { s with mode := Mode.grid }

/-- updatePinchStateDebounced(landmarks): two-state hysteresis debounce of
the normalized thumb-tip / index-tip distance; returns the new level. -/
def updatePinchStateDebounced (s : AppState) (lm : HandFrame) : AppState × Bool :=
  let rawDist := distance (lm 4) (lm 8)
  let handScale := getHandScaleNorm lm
  let normDist := rawDist / handScale
  if s.pinchClosed = false then
    let onC := if normDist < PINCH_ON then s.pinchOnCount + 1 else 0
    if onC ≥ PINCH_ON_FRAMES then
      ({ s with pinchClosed := true, pinchOnCount := 0, pinchOffCount := 0 }, true)
    else
      ({ s with pinchOnCount := onC }, false)
  else
    let offC := if normDist > PINCH_OFF then s.pinchOffCount + 1 else 0
    if offC ≥ PINCH_OFF_FRAMES then
      ({ s with pinchClosed := false, pinchOffCount := 0, pinchOnCount := 0 }, false)
    else
      ({ s with pinchOffCount := offC }, true)

/-- The folded test of the thumbs-up heuristic: tip below PIP, or tip close
to MCP relative to the hand scale. -/
def folded (hs : ℝ) (tip pip mcp : Landmark) : Prop :=
  tip.y > pip.y ∨ distance tip mcp / hs < 1.10

/-- isThumbsUpRaw(landmarks): thumb tip above IP above MCP and above the
wrist, and the four other fingers folded. -/
def isThumbsUpRaw (lm : HandFrame) : Prop :=
  let hs := getHandScaleNorm lm
  ((lm 4).y < (lm 3).y ∧ (lm 3).y < (lm 2).y ∧ (lm 4).y < (lm 0).y) ∧
  (folded hs (lm 8) (lm 6) (lm 5) ∧
   folded hs (lm 12) (lm 10) (lm 9) ∧
   folded hs (lm 16) (lm 14) (lm 13) ∧
   folded hs (lm 20) (lm 18) (lm 17))

/-- updateThumbsUpDebounced(landmarks): the same hysteresis shape as the
pinch debounce over the raw thumbs-up classification. -/
def updateThumbsUpDebounced (s : AppState) (lm : HandFrame) : AppState × Bool :=
  let raw := isThumbsUpRaw lm
  if s.thumbsUpActive = false then
    let onC := if raw then s.thumbsUpOnCount + 1 else 0
    if onC ≥ THUMBS_ON_FRAMES then
      ({ s with thumbsUpActive := true, thumbsUpOnCount := 0, thumbsUpOffCount := 0 }, true)
    else
      ({ s with thumbsUpOnCount := onC }, false)
  else
    let offC := if ¬ raw then s.thumbsUpOffCount + 1 else 0
    if offC ≥ THUMBS_OFF_FRAMES then
      ({ s with thumbsUpActive := false, thumbsUpOffCount := 0, thumbsUpOnCount := 0 }, false)
    else
      ({ s with thumbsUpOffCount := offC }, true)

/-- resetAllFiltersAndStates(): hard reset of both debounce machines, the
three filters and the previous-pinch-level flag. -/
def resetAllFiltersAndStates (s : AppState) : AppState :=
  { s with
    pinchClosed := false, pinchOnCount := 0, pinchOffCount := 0,
    thumbsUpActive := false, thumbsUpOnCount := 0, thumbsUpOffCount := 0,
    xFilter := s.xFilter.reset, yFilter := s.yFilter.reset,
    scaleFilter := s.scaleFilter.reset,
    wasPinching := false }

/-- The grid-mode restriction of the raw hit: thumbnails only
(under && under.classList.contains("thumb") ? under : null). -/
def thumbOnly : Option Target → Option Target
  | some t => if t.isThumb then some t else none
  | none => none

/-- The viewer-mode restriction of the raw hit: the close button only
(under === closeBtn ? closeBtn : null). -/
def closeOnly (o : Option Target) : Option Target :=
  if o = some Target.closeBtn then some Target.closeBtn else none

/-- The cursor/scale block of a hand-present tick: smooth the projected
index-tip position and the raw pixel scale, record the last published
cursor position and intensity. -/
def trackingStage (s : AppState) (lm : HandFrame) (vw vh nowMs : ℝ) : AppState :=
  let xy := screenCoordsFromLandmark (lm 8) vw vh
  let fx := s.xFilter.filter xy.1 nowMs
  let fy := s.yFilter.filter xy.2 nowMs
  let hsPxRaw := getHandScalePxRaw lm vw vh
  let fs := s.scaleFilter.filter hsPxRaw nowMs
  let t := handScaleToT fs.2
  { s with
    xFilter := fx.1, yFilter := fy.1, scaleFilter := fs.1,
    lastCursorX := fx.2, lastCursorY := fy.2, lastT := t }

/-- The hover block of a hand-present tick: mode-restricted raw hit fed to
the stabilizer; in grid mode a committed close button is cleared. -/
def hoverStage (s : AppState) (rawHit : Option Target) (nowMs : ℝ) : AppState :=
  if s.mode = Mode.grid then
    let s1 := stabilizeHover s (thumbOnly rawHit) nowMs
    if s1.hoveredEl = some Target.closeBtn then applyHovered s1 none else s1
  else
    stabilizeHover s (closeOnly rawHit) nowMs

/-- The pinch block of a hand-present tick: run the debounce, and on a
rising edge in grid mode open the hovered thumbnail (if any); finally
record the level for the next edge comparison. -/
def pinchStage (s : AppState) (lm : HandFrame) : AppState × List Event :=
  let r := updatePinchStateDebounced s lm
  let s1 := r.1
  let pinching := r.2
  let se :=
    if pinching = true ∧ s1.wasPinching = false then
      if s1.mode = Mode.grid then
        match thumbOnly s1.hoveredEl with
        | some target =>
          (openFile { clearSelected s1 with selectedEl := some target },
           [Event.openFile target])
        | none => (s1, [])
      else
        (s1, [])
    else
      (s1, [])
  ({ se.1 with wasPinching := pinching }, se.2)

/-- The thumbs-up block of a hand-present tick: run the debounce on every
hand-present tick; when the mode is viewer and the debounced level is
active, close the viewer, clear selection and hover, and hold the
debounce active so it must fully deactivate before re-firing. -/
def thumbsStage (s : AppState) (lm : HandFrame) : AppState × List Event :=
  let r := updateThumbsUpDebounced s lm
  let s1 := r.1
  let thumbsUp := r.2
  if s1.mode = Mode.viewer ∧ thumbsUp = true then
    let s2 := applyHovered (clearSelected (closeViewer s1)) none
    ({ s2 with thumbsUpActive := true, thumbsUpOnCount := 0, thumbsUpOffCount := 0 },
     [Event.closeViewer])
  else
    (s1, [])

/-- One hand-present tick of loop(nowMs): record last-seen, track, hover,
pinch, thumbs-up, then the periodic calibration-log timestamp. -/
def handPresentTick (s : AppState) (lm : HandFrame) (vw vh : ℝ)
    (rawHit : Option Target) (nowMs : ℝ) : AppState × List Event :=
  let s0 := { s with lastSeenMs := nowMs }
  let s1 := trackingStage s0 lm vw vh nowMs
  let s2 := hoverStage s1 rawHit nowMs
  let p := pinchStage s2 lm
  let q := thumbsStage p.1 lm
  let s5 := if nowMs - q.1.lastScaleLogAt > 1200 then { q.1 with lastScaleLogAt := nowMs } else q.1
  (s5, p.2 ++ q.2)

/-- One hand-absent tick of loop(nowMs): inside the grace window the tick is
a pure repaint of the held cursor; past it, hover is cleared and all
filters and debounce machines are hard reset. -/
def handAbsentTick (s : AppState) (nowMs : ℝ) : AppState × List Event :=
  let since := nowMs - s.lastSeenMs
  if since ≤ HAND_LOST_GRACE_MS then
    (s, [])
  else
    let s1 := stabilizeHover s none nowMs
    let s2 := applyHovered s1 none
    (resetAllFiltersAndStates s2, [])

/-- One full tick of loop(nowMs), after the video-frame dedup guard: the
detection result (zero or one hand), the viewport, the external hit-test
result at the smoothed cursor, and the timestamp. -/
def loopTick (s : AppState) (det : Option HandFrame) (vw vh : ℝ)
    (rawHit : Option Target) (nowMs : ℝ) : AppState × List Event :=
  match det with
  | some lm => handPresentTick s lm vw vh rawHit nowMs
  | none => handAbsentTick s nowMs

/-- The pinch detector state as named by the specification: the boolean
Open/Closed state and the two confirmation streaks. -/
structure PinchMachine where
  closed : Bool
  onStreak : ℕ
  offStreak : ℕ

/-- The pinch hysteresis step exactly as the wording of the specification
describes it (section 4.5): while Open, a tick under ON_THRESHOLD
increments onStreak, any other tick resets it, and the machine moves to
Closed once the streak reaches ON_FRAMES, resetting both streaks; the
Closed state is symmetric over OFF_THRESHOLD and OFF_FRAMES.  Used only to
compare the source detector against the specification. -/
def specPinchStep (normDist : ℝ) (m : PinchMachine) : PinchMachine :=
  if m.closed = false then
    let onS := if normDist < PINCH_ON then m.onStreak + 1 else 0
    if onS ≥ PINCH_ON_FRAMES then ⟨true, 0, 0⟩ else ⟨false, onS, m.offStreak⟩
  else
    let offS := if normDist > PINCH_OFF then m.offStreak + 1 else 0
    if offS ≥ PINCH_OFF_FRAMES then ⟨false, 0, 0⟩ else ⟨true, m.onStreak, offS⟩

/-- The thumbnail card with dataset id "1" from the demo FILES list. -/
def tOne : Target := Target.thumb "1"

/-- A concrete hand frame: fingertips touching (pinch fully on) and the
thumb not pointing up.  Wrist at (1/2, 9/10), index MCP at (3/5, 9/10). -/
def frameA : HandFrame := fun i =>
  if i = 0 then ⟨1/2, 9/10, 0⟩
  else if i = 5 then ⟨3/5, 9/10, 0⟩
  else if i = 4 then ⟨1/2, 1/2, 0⟩
  else if i = 8 then ⟨1/2, 1/2, 0⟩
  else if i = 3 then ⟨1/2, 2/5, 0⟩
  else ⟨0, 0, 0⟩

/-- A concrete hand frame classifying as a raw thumbs-up (thumb chain rising,
other fingertips below their PIP joints) with thumb and index tips far
apart (normalized pinch distance 6, well past PINCH_OFF). -/
def frameB : HandFrame := fun i =>
  if i = 0 then ⟨1/2, 9/10, 0⟩
  else if i = 5 then ⟨3/5, 9/10, 0⟩
  else if i = 2 then ⟨1/2, 2/5, 0⟩
  else if i = 3 then ⟨1/2, 3/10, 0⟩
  else if i = 4 then ⟨1/2, 1/5, 0⟩
  else if i = 8 then ⟨1/2, 4/5, 0⟩
  else if i = 6 then ⟨1/2, 7/10, 0⟩
  else if i = 12 then ⟨2/5, 4/5, 0⟩
  else if i = 10 then ⟨2/5, 7/10, 0⟩
  else if i = 16 then ⟨3/10, 4/5, 0⟩
  else if i = 14 then ⟨3/10, 7/10, 0⟩
  else if i = 20 then ⟨1/5, 4/5, 0⟩
  else if i = 18 then ⟨1/5, 7/10, 0⟩
  else ⟨0, 0, 0⟩

/-- A concrete hand frame classifying as a raw thumbs-up while the thumb and
index tips are close (normalized pinch distance 1/5, under PINCH_ON). -/
def frameC : HandFrame := fun i =>
  if i = 0 then ⟨1/2, 9/10, 0⟩
  else if i = 5 then ⟨3/5, 9/10, 0⟩
  else if i = 2 then ⟨1/2, 2/5, 0⟩
  else if i = 3 then ⟨1/2, 3/10, 0⟩
  else if i = 4 then ⟨1/2, 1/5, 0⟩
  else if i = 8 then ⟨1/2, 11/50, 0⟩
  else if i = 6 then ⟨1/2, 1/10, 0⟩
  else if i = 12 then ⟨2/5, 4/5, 0⟩
  else if i = 10 then ⟨2/5, 7/10, 0⟩
  else if i = 16 then ⟨3/10, 4/5, 0⟩
  else if i = 14 then ⟨3/10, 7/10, 0⟩
  else if i = 20 then ⟨1/5, 4/5, 0⟩
  else if i = 18 then ⟨1/5, 7/10, 0⟩
  else ⟨0, 0, 0⟩

/-- A hand frame whose wrist-to-index-MCP distance is positive but smaller
than 0.0001 (namely 1/20000 = 0.00005). -/
def tinyFrame : HandFrame := fun i =>
  if i = 5 then ⟨1/20000, 0, 0⟩ else ⟨0, 0, 0⟩

/-- An eight-tick execution trace, 100 ms per tick, viewport 1000 by 1000:
two pinch-on ticks over thumbnail "1" (opens the viewer), four thumbs-up
ticks hovering the close button (tick 4 releases the pinch, tick 5 fires
Close), then two ticks that keep the thumbs-up pose held while pinching
over thumbnail "1" again (tick 7 reopens, and the still-active thumbs-up
level closes the viewer again on the same tick). -/
def trc0 : AppState × List Event :=
  loopTick initialState (some frameA) 1000 1000 (some tOne) 0
/-- State before trace tick 1. -/
def trs1 : AppState := trc0.1
/-- Trace tick 1: pinch reaches PINCH_ON_FRAMES over the committed hover. -/
def trc1 : AppState × List Event :=
  loopTick trs1 (some frameA) 1000 1000 (some tOne) 100
/-- State before trace tick 2. -/
def trs2 : AppState := trc1.1
/-- Trace tick 2: viewer open, thumbs-up pose begins, pinch releasing. -/
def trc2 : AppState × List Event :=
  loopTick trs2 (some frameB) 1000 1000 (some Target.closeBtn) 200
/-- State before trace tick 3. -/
def trs3 : AppState := trc2.1
/-- Trace tick 3. -/
def trc3 : AppState × List Event :=
  loopTick trs3 (some frameB) 1000 1000 (some Target.closeBtn) 300
/-- State before trace tick 4. -/
def trs4 : AppState := trc3.1
/-- Trace tick 4. -/
def trc4 : AppState × List Event :=
  loopTick trs4 (some frameB) 1000 1000 (some Target.closeBtn) 400
/-- State before trace tick 5. -/
def trs5 : AppState := trc4.1
/-- Trace tick 5: the debounced thumbs-up activates and Close fires. -/
def trc5 : AppState × List Event :=
  loopTick trs5 (some frameB) 1000 1000 (some Target.closeBtn) 500
/-- State before trace tick 6. -/
def trs6 : AppState := trc5.1
/-- Trace tick 6: back in grid mode, pose still held, pinch re-starting. -/
def trc6 : AppState × List Event :=
  loopTick trs6 (some frameC) 1000 1000 (some tOne) 600
/-- State before trace tick 7. -/
def trs7 : AppState := trc6.1
/-- Trace tick 7: reopen by pinch; the held thumbs-up level closes again. -/
def trc7 : AppState × List Event :=
  loopTick trs7 (some frameC) 1000 1000 (some tOne) 700

/-- A concrete state used to instantiate the pinch-edge theorem: grid mode,
one pinch-on frame already counted, thumbnail "1" committed as hover. -/
def wPinch : AppState :=
  { initialState with pinchOnCount := 1, hoveredEl := some tOne, hoverCandidate := some tOne }

/-- A concrete viewer-mode state with the thumbs-up debounce already active. -/
def wClose : AppState :=
  { initialState with mode := Mode.viewer, thumbsUpActive := true }

/-- A concrete state with a committed hover target, used for the hand-loss
instantiations. -/
def wHover : AppState :=
  { initialState with hoveredEl := some tOne }

/-- A concrete state for the same-tick open-and-close instantiation: grid
mode, hover committed on thumbnail "1", pinch one frame from its edge,
thumbs-up debounce still held active. -/
def wBoth : AppState :=
  { initialState with
    pinchOnCount := 1, hoveredEl := some tOne,
    hoverCandidate := some tOne, thumbsUpActive := true }

/-- A concrete one-euro filter state that has already consumed a sample. -/
def wFilter : OneEuroFilter :=
  { freq := 60, minCutoff := 1.0, beta := 0.02, dCutoff := 1.0,
    xPrev := some 1, dxPrev := 0, tPrev := some 0 }

end

/-! ## Evaluation helpers for concrete landmark geometry -/

/-- Distance between landmarks sharing an x coordinate. -/
lemma distance_of_eq_x (a b : Landmark) (h : a.x = b.x) :
    distance a b = |a.y - b.y| := by
  simp [distance, h, Real.sqrt_sq_eq_abs]

/-- Distance between landmarks sharing a y coordinate. -/
lemma distance_of_eq_y (a b : Landmark) (h : a.y = b.y) :
    distance a b = |a.x - b.x| := by
  simp [distance, h, Real.sqrt_sq_eq_abs]

lemma frameA_hs : getHandScaleNorm frameA = 1 / 10 := by
  have h : distance (frameA 0) (frameA 5) = 1 / 10 := by
    rw [distance_of_eq_y _ _ (by norm_num [frameA])]
    rw [show (frameA 0).x - (frameA 5).x = -(1 / 10) by norm_num [frameA]]
    rw [abs_neg, abs_of_nonneg (by norm_num)]
  simp only [getHandScaleNorm, h]
  norm_num

lemma frameB_hs : getHandScaleNorm frameB = 1 / 10 := by
  have h : distance (frameB 0) (frameB 5) = 1 / 10 := by
    rw [distance_of_eq_y _ _ (by norm_num [frameB])]
    rw [show (frameB 0).x - (frameB 5).x = -(1 / 10) by norm_num [frameB]]
    rw [abs_neg, abs_of_nonneg (by norm_num)]
  simp only [getHandScaleNorm, h]
  norm_num

lemma frameC_hs : getHandScaleNorm frameC = 1 / 10 := by
  have h : distance (frameC 0) (frameC 5) = 1 / 10 := by
    rw [distance_of_eq_y _ _ (by norm_num [frameC])]
    rw [show (frameC 0).x - (frameC 5).x = -(1 / 10) by norm_num [frameC]]
    rw [abs_neg, abs_of_nonneg (by norm_num)]
  simp only [getHandScaleNorm, h]
  norm_num

lemma frameA_pinchDist : distance (frameA 4) (frameA 8) = 0 := by
  rw [distance_of_eq_x _ _ (by norm_num [frameA])]
  norm_num [frameA]

lemma frameB_pinchDist : distance (frameB 4) (frameB 8) = 3 / 5 := by
  rw [distance_of_eq_x _ _ (by norm_num [frameB])]
  rw [show (frameB 4).y - (frameB 8).y = -(3 / 5) by norm_num [frameB]]
  rw [abs_neg, abs_of_nonneg (by norm_num)]

lemma frameC_pinchDist : distance (frameC 4) (frameC 8) = 1 / 50 := by
  rw [distance_of_eq_x _ _ (by norm_num [frameC])]
  rw [show (frameC 4).y - (frameC 8).y = -(1 / 50) by norm_num [frameC]]
  rw [abs_neg, abs_of_nonneg (by norm_num)]

lemma frameA_notRaw : ¬ isThumbsUpRaw frameA := by
  intro h
  have h1 := h.1.1
  norm_num [frameA] at h1

lemma frameB_raw : isThumbsUpRaw frameB := by
  simp only [isThumbsUpRaw, folded]
  refine ⟨⟨?_, ?_, ?_⟩, Or.inl ?_, Or.inl ?_, Or.inl ?_, Or.inl ?_⟩ <;> norm_num [frameB]

lemma frameC_raw : isThumbsUpRaw frameC := by
  simp only [isThumbsUpRaw, folded]
  refine ⟨⟨?_, ?_, ?_⟩, Or.inl ?_, Or.inl ?_, Or.inl ?_, Or.inl ?_⟩ <;> norm_num [frameC]

lemma tinyFrame_dist : distance (tinyFrame 0) (tinyFrame 5) = 1 / 20000 := by
  rw [distance_of_eq_y _ _ (by norm_num [tinyFrame])]
  rw [show (tinyFrame 0).x - (tinyFrame 5).x = -(1 / 20000) by norm_num [tinyFrame]]
  rw [abs_neg, abs_of_nonneg (by norm_num)]

/-! ## Claim C5: the hand-scale floor -/

/-- Claim C5, corrected: getHandScaleNorm substitutes 0.0001 only when the
wrist-to-index-MCP distance is not positive; it is not a floor, but the
result is always strictly positive, so every normalized distance divided
by it is well defined. -/
theorem c5_handScaleNorm_positive (lm : HandFrame) :
    0 < getHandScaleNorm lm ∧
    getHandScaleNorm lm =
      (if distance (lm 0) (lm 5) > 0 then distance (lm 0) (lm 5) else 0.0001) := by
  constructor
  · simp only [getHandScaleNorm]
    split_ifs with h
    · exact h
    · norm_num
  · rfl

/-- Claim C5, counterexample: a hand frame whose wrist-to-index-MCP distance
is 0.00005 makes getHandScaleNorm return 0.00005, strictly below the
0.0001 epsilon the claim asserts as a lower bound. -/
theorem c5_counterexample : getHandScaleNorm tinyFrame < 0.0001 := by
  simp only [getHandScaleNorm, tinyFrame_dist]
  rw [if_pos (by norm_num)]
  norm_num

/-! ## Claim C7: the raw thumbs-up classifier -/

/-- Claim C7: isThumbsUpRaw holds exactly when the thumb chain is
monotonically up (tip above IP above MCP, tip above wrist) and each of the
index, middle, ring and pinky fingers has its tip below its PIP or its
tip-to-MCP distance normalized by the hand scale under 1.10. -/
theorem c7_isThumbsUpRaw_iff (lm : HandFrame) :
    isThumbsUpRaw lm ↔
      (((lm 4).y < (lm 3).y ∧ (lm 3).y < (lm 2).y ∧ (lm 4).y < (lm 0).y) ∧
       (((lm 8).y > (lm 6).y ∨ distance (lm 8) (lm 5) / getHandScaleNorm lm < 1.10) ∧
        ((lm 12).y > (lm 10).y ∨ distance (lm 12) (lm 9) / getHandScaleNorm lm < 1.10) ∧
        ((lm 16).y > (lm 14).y ∨ distance (lm 16) (lm 13) / getHandScaleNorm lm < 1.10) ∧
        ((lm 20).y > (lm 18).y ∨ distance (lm 20) (lm 17) / getHandScaleNorm lm < 1.10))) :=
  Iff.rfl

/-! ## Claim C9: monotone clamped intensity remap -/

lemma clamp01_bounds (x : ℝ) : 0 ≤ clamp x 0 1 ∧ clamp x 0 1 ≤ 1 :=
  ⟨le_max_left _ _, max_le (by norm_num) (min_le_left _ _)⟩

/-- Claim C9: handScaleToT is non-decreasing, its output always lies in
[0, 1], and it is easeOutCubic applied to the linear remap
(hsPx - 40) / (300 - 40) clamped to [0, 1]. -/
theorem c9_handScaleToT_monotone_clamped (a b : ℝ) :
    (a ≤ b → handScaleToT a ≤ handScaleToT b) ∧
    (0 ≤ handScaleToT a ∧ handScaleToT a ≤ 1) ∧
    handScaleToT a = easeOutCubic (clamp ((a - 40) / (300 - 40)) 0 1) := by
  obtain ⟨ha0, ha1⟩ := clamp01_bounds ((a - 40) / (300 - 40))
  refine ⟨?_, ⟨?_, ?_⟩, rfl⟩
  · intro hab
    obtain ⟨hb0, hb1⟩ := clamp01_bounds ((b - 40) / (300 - 40))
    have hlin : clamp ((a - 40) / (300 - 40)) 0 1 ≤ clamp ((b - 40) / (300 - 40)) 0 1 := by
      simp only [clamp]
      apply max_le_max le_rfl
      apply min_le_min le_rfl
      exact (div_le_div_iff_of_pos_right (by norm_num : (0 : ℝ) < 300 - 40)).mpr (by linarith)
    simp only [handScaleToT, easeOutCubic]
    have hpow : (1 - clamp ((b - 40) / (300 - 40)) 0 1) ^ 3 ≤
        (1 - clamp ((a - 40) / (300 - 40)) 0 1) ^ 3 :=
      pow_le_pow_left₀ (by linarith) (by linarith) 3
    linarith
  · simp only [handScaleToT, easeOutCubic]
    have : (1 - clamp ((a - 40) / (300 - 40)) 0 1) ^ 3 ≤ 1 :=
      pow_le_one₀ (by linarith) (by linarith)
    linarith
  · simp only [handScaleToT, easeOutCubic]
    have : 0 ≤ (1 - clamp ((a - 40) / (300 - 40)) 0 1) ^ 3 :=
      pow_nonneg (by linarith) 3
    linarith

/-- Claim C9, witness at the concrete inputs 50 and 100. -/
theorem c9_witness : (50 : ℝ) ≤ 100 ∧ handScaleToT 50 ≤ handScaleToT 100 :=
  ⟨by norm_num, (c9_handScaleToT_monotone_clamped 50 100).1 (by norm_num)⟩

/-! ## Claim C6: the pinch detector is the specified hysteresis machine -/

/-- Claim C6: the pinch debounce of the source is pointwise equal to the
two-state hysteresis machine described by the specification — streaks
increment under the matching threshold and reset otherwise, and state
flips exactly when a streak reaches its frame count, resetting both —
with the reference constants 0.30 / 0.60 / 2 / 3. -/
theorem c6_pinch_is_spec_machine :
    PINCH_ON = 0.30 ∧ PINCH_OFF = 0.60 ∧ PINCH_ON_FRAMES = 2 ∧ PINCH_OFF_FRAMES = 3 ∧
    ∀ (s : AppState) (lm : HandFrame),
      updatePinchStateDebounced s lm =
        (let m := specPinchStep (distance (lm 4) (lm 8) / getHandScaleNorm lm)
            ⟨s.pinchClosed, s.pinchOnCount, s.pinchOffCount⟩
         ({ s with pinchClosed := m.closed, pinchOnCount := m.onStreak,
                   pinchOffCount := m.offStreak }, m.closed)) := by
  refine ⟨rfl, rfl, rfl, rfl, fun s lm => ?_⟩
  obtain ⟨pc, pon, poff, ta, ton, toff, md, ls, he, hc, hcs, se, wp, lx, ly, lt, lsl, xf, yf, sf⟩ := s
  cases pc <;>
    simp only [updatePinchStateDebounced, specPinchStep] <;>
    split_ifs <;>
    simp_all

/-! ## Claim C8: the one-euro filter computes the reference formulas -/

/-- Claim C8: a OneEuroFilter with unset state (as after construction and
after reset) returns the raw sample and stores it; any later call
computes dt, the filtered derivative, the speed-adapted cutoff and the
exponential blend exactly as the reference formulas state, and stores the
output, the filtered derivative and the timestamp (together with the
updated sampling frequency). -/
theorem c8_oneEuroFilter_formulas (f : OneEuroFilter) (x tMs : ℝ) :
    ((OneEuroFilter.init f.freq f.minCutoff f.beta f.dCutoff).tPrev = none ∧
      f.reset.tPrev = none) ∧
    (f.tPrev = none →
      f.filter x tMs = ({ f with tPrev := some tMs, xPrev := some x, dxPrev := 0 }, x)) ∧
    (∀ tp xp, f.tPrev = some tp → f.xPrev = some xp →
      f.filter x tMs =
        (let dt := max 1e-6 ((tMs - tp) / 1000)
         let dx := (x - xp) / dt
         let dxHat := f.dxPrev + (1 / (1 + (1 / (2 * Real.pi * f.dCutoff)) / dt)) * (dx - f.dxPrev)
         let cutoff := f.minCutoff + f.beta * |dxHat|
         let a := 1 / (1 + (1 / (2 * Real.pi * cutoff)) / dt)
         let xHat := xp + a * (x - xp)
         ({ f with freq := 1 / dt, tPrev := some tMs, xPrev := some xHat, dxPrev := dxHat },
          xHat))) := by
  refine ⟨⟨rfl, rfl⟩, ?_, ?_⟩
  · intro h
    simp only [OneEuroFilter.filter, h]
  · intro tp xp htp hxp
    simp only [OneEuroFilter.filter, htp, hxp, Option.getD_some, OneEuroFilter.alpha, lowpass,
      one_div_one_div]

/-- Claim C8, witness: a first call on a freshly constructed filter, and a
follow-up call on a filter that has already stored a sample. -/
theorem c8_witness :
    (OneEuroFilter.init 60 1 0.02 1).filter 5 0 =
      ({ OneEuroFilter.init 60 1 0.02 1 with tPrev := some 0, xPrev := some 5, dxPrev := 0 }, 5) ∧
    wFilter.filter 2 100 =
      (let dt := max 1e-6 ((100 - 0) / 1000)
       let dx := (2 - 1) / dt
       let dxHat := wFilter.dxPrev + (1 / (1 + (1 / (2 * Real.pi * wFilter.dCutoff)) / dt)) * (dx - wFilter.dxPrev)
       let cutoff := wFilter.minCutoff + wFilter.beta * |dxHat|
       let a := 1 / (1 + (1 / (2 * Real.pi * cutoff)) / dt)
       let xHat := 1 + a * (2 - 1)
       ({ wFilter with freq := 1 / dt, tPrev := some 100, xPrev := some xHat, dxPrev := dxHat },
        xHat)) :=
  ⟨(c8_oneEuroFilter_formulas (OneEuroFilter.init 60 1 0.02 1) 5 0).2.1 rfl,
   (c8_oneEuroFilter_formulas wFilter 2 100).2.2 0 1 rfl rfl⟩

/-! ## Constructor disequalities used to resolve branch conditions -/

lemma tOne_isThumb : Target.isThumb tOne = true := rfl

lemma thumbOnly_tOne : thumbOnly (some tOne) = some tOne := rfl

lemma optNoneNeSome (t : Target) : (none : Option Target) ≠ some t := fun h => Option.noConfusion h

lemma tOne_ne_close : tOne ≠ Target.closeBtn := by decide

lemma close_ne_tOne : Target.closeBtn ≠ tOne := by decide

lemma grid_ne_viewer : Mode.grid ≠ Mode.viewer := by decide

lemma viewer_ne_grid : Mode.viewer ≠ Mode.grid := by decide

/-! ## Field-preservation facts for the two debounce updates -/

lemma updatePinch_preserves (s : AppState) (lm : HandFrame) :
    (updatePinchStateDebounced s lm).1.mode = s.mode ∧
    (updatePinchStateDebounced s lm).1.wasPinching = s.wasPinching ∧
    (updatePinchStateDebounced s lm).1.hoveredEl = s.hoveredEl ∧
    (updatePinchStateDebounced s lm).1.selectedEl = s.selectedEl := by
  refine ⟨?_, ?_, ?_, ?_⟩ <;>
    · simp only [updatePinchStateDebounced]
      split_ifs <;> rfl

lemma updateThumbs_preserves (s : AppState) (lm : HandFrame) :
    (updateThumbsUpDebounced s lm).1.mode = s.mode ∧
    (updateThumbsUpDebounced s lm).1.hoveredEl = s.hoveredEl ∧
    (updateThumbsUpDebounced s lm).1.selectedEl = s.selectedEl := by
  refine ⟨?_, ?_, ?_⟩ <;>
    · simp only [updateThumbsUpDebounced]
      split_ifs <;> rfl

/-! ## Claim C1: pinch edge semantics per mode -/

/-- Claim C1: on any hand-present tick on which the debounced pinch level
rises (level true now, recorded level false), the pinch block of the loop
opens the committed hovered thumbnail — emitting exactly one Open event
naming it and switching the mode to viewer — when the mode is grid and
such a thumbnail is hovered; it emits nothing and leaves the mode (and
hover and selection) unchanged when the mode is grid with no selectable
element hovered; and in viewer mode it emits nothing and changes nothing
beyond the detector bookkeeping. -/
theorem c1_pinch_edge (s : AppState) (lm : HandFrame)
    (hEdge : (updatePinchStateDebounced s lm).2 = true)
    (hWas : s.wasPinching = false) :
    (∀ id : String, s.mode = Mode.grid → s.hoveredEl = some (Target.thumb id) →
      pinchStage s lm =
        ({ (updatePinchStateDebounced s lm).1 with
            selectedEl := some (Target.thumb id), mode := Mode.viewer, wasPinching := true },
         [Event.openFile (Target.thumb id)])) ∧
    (s.mode = Mode.grid → thumbOnly s.hoveredEl = none →
      pinchStage s lm = ({ (updatePinchStateDebounced s lm).1 with wasPinching := true }, [])) ∧
    (s.mode = Mode.viewer →
      pinchStage s lm = ({ (updatePinchStateDebounced s lm).1 with wasPinching := true }, [])) := by
  obtain ⟨hm, hw, hh, hs⟩ := updatePinch_preserves s lm
  refine ⟨?_, ?_, ?_⟩
  · intro id hmode hhov
    simp only [pinchStage, hEdge, hw, hWas, hm, hmode, hh, hhov, thumbOnly, Target.isThumb,
      openFile, clearSelected, if_true]
    simp
  · intro hmode hnone
    simp only [pinchStage, hEdge, hw, hWas, hm, hmode, hh, hnone, if_true]
    simp
    exact ⟨hm.trans hmode, hh⟩
  · intro hmode
    simp only [pinchStage, hEdge, hw, hWas, hm, hmode]
    simp
    exact hm.trans hmode

/-! ## Claim C10: level-triggered close, advanced in every mode -/

/-- Claim C10: the thumbs-up debounce is advanced by the thumbs block on
every hand-present tick regardless of the mode (in grid mode the block is
exactly the debounce update, with no event); whenever the mode is viewer
and the updated debounced level is true the viewer closes on that very
tick — the condition tests the level, not an activation edge; and
concretely, a tick that opens the viewer by pinch while the debounced
level is still held active emits Open and Close on the same tick. -/
theorem c10_close_tests_level :
    (∀ (s : AppState) (lm : HandFrame), s.mode = Mode.grid →
      thumbsStage s lm = ((updateThumbsUpDebounced s lm).1, [])) ∧
    (∀ (s : AppState) (lm : HandFrame), s.mode = Mode.viewer →
      (updateThumbsUpDebounced s lm).2 = true →
      (thumbsStage s lm).2 = [Event.closeViewer] ∧
      (thumbsStage s lm).1.mode = Mode.grid) ∧
    (handPresentTick wBoth frameC 1000 1000 (some tOne) 800).2 =
      [Event.openFile tOne, Event.closeViewer] := by
  refine ⟨?_, ?_, ?_⟩
  · intro s lm hmode
    obtain ⟨hm, _, _⟩ := updateThumbs_preserves s lm
    simp only [thumbsStage, hm, hmode]
    simp
  · intro s lm hmode hlevel
    obtain ⟨hm, _, _⟩ := updateThumbs_preserves s lm
    simp only [thumbsStage, hm, hmode, hlevel, if_true]
    simp [closeViewer, clearSelected, applyHovered]
    split_ifs <;> simp
  · norm_num [handPresentTick, trackingStage, hoverStage, stabilizeHover, applyHovered,
      pinchStage, thumbsStage, updatePinchStateDebounced, updateThumbsUpDebounced,
      thumbOnly_tOne, tOne_isThumb, openFile, closeViewer, clearSelected, wBoth, initialState,
      frameC_pinchDist, frameC_hs, frameC_raw, PINCH_ON, PINCH_ON_FRAMES,
      THUMBS_OFF_FRAMES, tOne_ne_close, close_ne_tOne, grid_ne_viewer, viewer_ne_grid,
      Option.some_ne_none, optNoneNeSome]

/-! ## Claim C2 (amended): the held thumbs-up debounce after Close -/

/-- Claim C2, amended: when Close fires the mode returns to grid and the
thumbs-up debounce is left active with both streaks cleared; the thumbs
block never emits an event on a grid-mode tick; and while the debounce is
active its level stays true until the raw classifier has been false for
THUMBS_OFF_FRAMES consecutive hand-present ticks (any raw-true tick
resets the release streak).  Hence a sustained pose yields at most one
Close while the viewer stays closed; only reopening the viewer while the
level is still held can produce another Close earlier. -/
theorem c2_close_holds_debounce :
    (∀ (s : AppState) (lm : HandFrame), s.mode = Mode.viewer →
      (updateThumbsUpDebounced s lm).2 = true →
      (thumbsStage s lm).1.mode = Mode.grid ∧
      (thumbsStage s lm).1.thumbsUpActive = true ∧
      (thumbsStage s lm).1.thumbsUpOnCount = 0 ∧
      (thumbsStage s lm).1.thumbsUpOffCount = 0 ∧
      (thumbsStage s lm).2 = [Event.closeViewer]) ∧
    (∀ (s : AppState) (lm : HandFrame), s.mode = Mode.grid →
      (thumbsStage s lm).2 = []) ∧
    (∀ (s : AppState) (lm : HandFrame), s.thumbsUpActive = true →
      (isThumbsUpRaw lm →
        updateThumbsUpDebounced s lm = ({ s with thumbsUpOffCount := 0 }, true)) ∧
      (¬ isThumbsUpRaw lm → s.thumbsUpOffCount + 1 < THUMBS_OFF_FRAMES →
        updateThumbsUpDebounced s lm =
          ({ s with thumbsUpOffCount := s.thumbsUpOffCount + 1 }, true)) ∧
      (¬ isThumbsUpRaw lm → s.thumbsUpOffCount + 1 ≥ THUMBS_OFF_FRAMES →
        updateThumbsUpDebounced s lm =
          ({ s with thumbsUpActive := false, thumbsUpOffCount := 0, thumbsUpOnCount := 0 },
           false))) := by
  refine ⟨?_, ?_, ?_⟩
  · intro s lm hmode hlevel
    obtain ⟨hm, _, _⟩ := updateThumbs_preserves s lm
    simp only [thumbsStage, hm, hmode, hlevel, if_true]
    simp [closeViewer, clearSelected, applyHovered]
    split_ifs <;> simp
  · intro s lm hmode
    obtain ⟨hm, _, _⟩ := updateThumbs_preserves s lm
    simp only [thumbsStage, hm, hmode]
    simp
  · intro s lm hactive
    refine ⟨?_, ?_, ?_⟩
    · intro hraw
      simp only [updateThumbsUpDebounced, hactive, hraw, THUMBS_OFF_FRAMES]
      norm_num
    · intro hraw hlt
      have hlt4 : s.thumbsUpOffCount + 1 < 4 := hlt
      simp only [updateThumbsUpDebounced, hactive, hraw, THUMBS_OFF_FRAMES]
      norm_num
      omega
    · intro hraw hge
      have hge4 : s.thumbsUpOffCount + 1 ≥ 4 := hge
      simp only [updateThumbsUpDebounced, hactive, hraw, THUMBS_OFF_FRAMES]
      norm_num
      omega

/-! ## Claim C3: the hand-loss grace window -/

/-- Claim C3: a hand-absent tick within the grace window changes nothing at
all (cursor, intensity, hover, mode, filters, debounce state) and emits
nothing; a hand-absent tick past the grace window clears the committed
hover (and candidate) to none, hard-resets both debounce machines, the
previous-pinch-level flag and all three one-euro filters, and leaves the
mode — and everything else, including the held cursor — untouched. -/
theorem c3_grace_window :
    (∀ (s : AppState) (vw vh : ℝ) (rawHit : Option Target) (now : ℝ),
      now - s.lastSeenMs ≤ HAND_LOST_GRACE_MS →
      loopTick s none vw vh rawHit now = (s, [])) ∧
    (∀ (s : AppState) (vw vh : ℝ) (rawHit : Option Target) (now : ℝ),
      now - s.lastSeenMs > HAND_LOST_GRACE_MS →
      loopTick s none vw vh rawHit now =
        ({ s with
            hoveredEl := none, hoverCandidate := none,
            hoverCandidateSince :=
              if s.hoverCandidate = none then s.hoverCandidateSince else now,
            pinchClosed := false, pinchOnCount := 0, pinchOffCount := 0,
            thumbsUpActive := false, thumbsUpOnCount := 0, thumbsUpOffCount := 0,
            wasPinching := false,
            xFilter := s.xFilter.reset, yFilter := s.yFilter.reset,
            scaleFilter := s.scaleFilter.reset }, [])) := by
  constructor
  · intro s vw vh rawHit now h
    simp only [loopTick, handAbsentTick]
    rw [if_pos h]
  · intro s vw vh rawHit now h
    simp only [loopTick, handAbsentTick]
    rw [if_neg (not_le.mpr h)]
    simp only [stabilizeHover, applyHovered, resetAllFiltersAndStates]
    split_ifs <;> simp_all [AppState.mk.injEq]

/-! ## Claim C4 (amended): how the committed hover target may change -/

lemma applyHovered_none_hoveredEl (s : AppState) : (applyHovered s none).hoveredEl = none := by
  simp only [applyHovered]
  split_ifs with h
  · exact h
  · rfl

lemma stabilizeHover_change (s : AppState) (next : Option Target) (now : ℝ) :
    (stabilizeHover s next now).hoveredEl = s.hoveredEl ∨
    ((stabilizeHover s next now).hoveredEl = s.hoverCandidate ∧
      now - s.hoverCandidateSince ≥ HOVER_DWELL_MS) := by
  simp only [stabilizeHover, applyHovered]
  split_ifs with h1 h2 h3
  · exact Or.inl rfl
  · exact Or.inl rfl
  · exact Or.inr ⟨rfl, h2.2⟩
  · exact Or.inl rfl

lemma hoverStage_change (s : AppState) (rawHit : Option Target) (now : ℝ) :
    (hoverStage s rawHit now).hoveredEl = s.hoveredEl ∨
    (hoverStage s rawHit now).hoveredEl = none ∨
    ((hoverStage s rawHit now).hoveredEl = s.hoverCandidate ∧
      now - s.hoverCandidateSince ≥ HOVER_DWELL_MS) := by
  simp only [hoverStage]
  split_ifs with h1 h2
  · exact Or.inr (Or.inl (applyHovered_none_hoveredEl _))
  · rcases stabilizeHover_change s (thumbOnly rawHit) now with h | h
    · exact Or.inl h
    · exact Or.inr (Or.inr h)
  · rcases stabilizeHover_change s (closeOnly rawHit) now with h | h
    · exact Or.inl h
    · exact Or.inr (Or.inr h)

lemma pinchStage_hoveredEl (s : AppState) (lm : HandFrame) :
    (pinchStage s lm).1.hoveredEl = s.hoveredEl := by
  obtain ⟨_, _, hh, _⟩ := updatePinch_preserves s lm
  simp only [pinchStage, openFile, clearSelected]
  split_ifs <;>
    rcases hmatch : thumbOnly (updatePinchStateDebounced s lm).1.hoveredEl with _ | t <;>
    simp [hmatch, hh]

lemma thumbsStage_hoveredEl (s : AppState) (lm : HandFrame) :
    (thumbsStage s lm).1.hoveredEl = s.hoveredEl ∨
    (thumbsStage s lm).1.hoveredEl = none := by
  obtain ⟨_, hh, _⟩ := updateThumbs_preserves s lm
  simp only [thumbsStage, closeViewer, clearSelected]
  split_ifs with h
  · exact Or.inr (applyHovered_none_hoveredEl _)
  · exact Or.inl hh

lemma handPresentTick_hoveredEl (s : AppState) (lm : HandFrame) (vw vh : ℝ)
    (rawHit : Option Target) (now : ℝ) :
    (handPresentTick s lm vw vh rawHit now).1.hoveredEl =
      (thumbsStage
        (pinchStage
          (hoverStage (trackingStage { s with lastSeenMs := now } lm vw vh now) rawHit now)
          lm).1 lm).1.hoveredEl := by
  simp only [handPresentTick]
  split_ifs <;> rfl

/-- Claim C4, amended: across any full tick, the committed hover target
changes only to none (the orchestrator clears it directly on viewer
close, on a close-button hover produced in grid mode, and on hand loss
past the grace window) or to the stored hover candidate on a tick whose
dwell clock is at least HOVER_DWELL_MS old; it never changes to any other
value or commits a candidate earlier than the dwell allows. -/
theorem c4_hover_commit (s : AppState) (det : Option HandFrame) (vw vh : ℝ)
    (rawHit : Option Target) (now : ℝ)
    (hchange : (loopTick s det vw vh rawHit now).1.hoveredEl ≠ s.hoveredEl) :
    (loopTick s det vw vh rawHit now).1.hoveredEl = none ∨
    ((loopTick s det vw vh rawHit now).1.hoveredEl = s.hoverCandidate ∧
      now - s.hoverCandidateSince ≥ HOVER_DWELL_MS) := by
  cases det with
  | none =>
    by_cases h : now - s.lastSeenMs ≤ HAND_LOST_GRACE_MS
    · exfalso
      apply hchange
      show (handAbsentTick s now).1.hoveredEl = s.hoveredEl
      simp only [handAbsentTick]
      rw [if_pos h]
    · left
      show (handAbsentTick s now).1.hoveredEl = none
      simp only [handAbsentTick]
      rw [if_neg h]
      exact applyHovered_none_hoveredEl _
  | some lm =>
    have hkey := handPresentTick_hoveredEl s lm vw vh rawHit now
    rcases thumbsStage_hoveredEl
        (pinchStage
          (hoverStage (trackingStage { s with lastSeenMs := now } lm vw vh now) rawHit now)
          lm).1 lm with hq | hq
    · have hp := pinchStage_hoveredEl
        (hoverStage (trackingStage { s with lastSeenMs := now } lm vw vh now) rawHit now) lm
      rcases hoverStage_change (trackingStage { s with lastSeenMs := now } lm vw vh now)
          rawHit now with hh | hh | hh
      · exfalso
        apply hchange
        show (handPresentTick s lm vw vh rawHit now).1.hoveredEl = s.hoveredEl
        rw [hkey, hq, hp, hh]
        rfl
      · left
        show (handPresentTick s lm vw vh rawHit now).1.hoveredEl = none
        rw [hkey, hq, hp, hh]
      · right
        constructor
        · show (handPresentTick s lm vw vh rawHit now).1.hoveredEl = s.hoverCandidate
          rw [hkey, hq, hp, hh.1]
          rfl
        · exact hh.2

    · left
      show (handPresentTick s lm vw vh rawHit now).1.hoveredEl = none
      rw [hkey, hq]

/-! ## Control-state evaluation of the eight-tick trace -/

lemma trs1_facts :
    trs1.mode = Mode.grid ∧ trs1.hoveredEl = none ∧ trs1.hoverCandidate = some tOne ∧
    trs1.hoverCandidateSince = 0 ∧ trs1.pinchClosed = false ∧ trs1.pinchOnCount = 1 ∧
    trs1.pinchOffCount = 0 ∧ trs1.wasPinching = false ∧ trs1.thumbsUpActive = false ∧
    trs1.thumbsUpOnCount = 0 ∧ trs1.thumbsUpOffCount = 0 ∧ trs1.lastScaleLogAt = 0 ∧
    trc0.2 = [] := by
  norm_num [trs1, trc0, loopTick, handPresentTick, trackingStage, hoverStage, stabilizeHover,
    applyHovered, pinchStage, thumbsStage, updatePinchStateDebounced, updateThumbsUpDebounced,
    thumbOnly_tOne, closeOnly, openFile, closeViewer, clearSelected, initialState,
    frameA_pinchDist, frameA_hs, frameA_notRaw,
    PINCH_ON, PINCH_OFF, PINCH_ON_FRAMES, PINCH_OFF_FRAMES, THUMBS_ON_FRAMES, THUMBS_OFF_FRAMES,
    HOVER_DWELL_MS, tOne_ne_close, close_ne_tOne, grid_ne_viewer, viewer_ne_grid,
    Option.some_ne_none, optNoneNeSome]

lemma trs2_facts :
    trs2.mode = Mode.viewer ∧ trs2.hoveredEl = some tOne ∧ trs2.hoverCandidate = some tOne ∧
    trs2.hoverCandidateSince = 0 ∧ trs2.pinchClosed = true ∧ trs2.pinchOnCount = 0 ∧
    trs2.pinchOffCount = 0 ∧ trs2.wasPinching = true ∧ trs2.thumbsUpActive = false ∧
    trs2.thumbsUpOnCount = 0 ∧ trs2.thumbsUpOffCount = 0 ∧ trs2.lastScaleLogAt = 0 ∧
    trc1.2 = [Event.openFile tOne] := by
  obtain ⟨h1, h2, h3, h4, h5, h6, h7, h8, h9, h10, h11, h12, _⟩ := trs1_facts
  norm_num [trs2, trc1, loopTick, handPresentTick, trackingStage, hoverStage, stabilizeHover,
    applyHovered, pinchStage, thumbsStage, updatePinchStateDebounced, updateThumbsUpDebounced,
    thumbOnly_tOne, closeOnly, openFile, closeViewer, clearSelected,
    h1, h2, h3, h4, h5, h6, h7, h8, h9, h10, h11, h12,
    frameA_pinchDist, frameA_hs, frameA_notRaw,
    PINCH_ON, PINCH_OFF, PINCH_ON_FRAMES, PINCH_OFF_FRAMES, THUMBS_ON_FRAMES, THUMBS_OFF_FRAMES,
    HOVER_DWELL_MS, tOne_ne_close, close_ne_tOne, grid_ne_viewer, viewer_ne_grid,
    Option.some_ne_none, optNoneNeSome]

lemma trs3_facts :
    trs3.mode = Mode.viewer ∧ trs3.hoveredEl = some tOne ∧
    trs3.hoverCandidate = some Target.closeBtn ∧
    trs3.hoverCandidateSince = 200 ∧ trs3.pinchClosed = true ∧ trs3.pinchOnCount = 0 ∧
    trs3.pinchOffCount = 1 ∧ trs3.wasPinching = true ∧ trs3.thumbsUpActive = false ∧
    trs3.thumbsUpOnCount = 1 ∧ trs3.thumbsUpOffCount = 0 ∧ trs3.lastScaleLogAt = 0 ∧
    trc2.2 = [] := by
  obtain ⟨h1, h2, h3, h4, h5, h6, h7, h8, h9, h10, h11, h12, _⟩ := trs2_facts
  norm_num [trs3, trc2, loopTick, handPresentTick, trackingStage, hoverStage, stabilizeHover,
    applyHovered, pinchStage, thumbsStage, updatePinchStateDebounced, updateThumbsUpDebounced,
    thumbOnly_tOne, closeOnly, openFile, closeViewer, clearSelected,
    h1, h2, h3, h4, h5, h6, h7, h8, h9, h10, h11, h12,
    frameB_pinchDist, frameB_hs, frameB_raw,
    PINCH_ON, PINCH_OFF, PINCH_ON_FRAMES, PINCH_OFF_FRAMES, THUMBS_ON_FRAMES, THUMBS_OFF_FRAMES,
    HOVER_DWELL_MS, tOne_ne_close, close_ne_tOne, grid_ne_viewer, viewer_ne_grid,
    Option.some_ne_none, optNoneNeSome]

lemma trs4_facts :
    trs4.mode = Mode.viewer ∧ trs4.hoveredEl = some Target.closeBtn ∧
    trs4.hoverCandidate = some Target.closeBtn ∧
    trs4.hoverCandidateSince = 200 ∧ trs4.pinchClosed = true ∧ trs4.pinchOnCount = 0 ∧
    trs4.pinchOffCount = 2 ∧ trs4.wasPinching = true ∧ trs4.thumbsUpActive = false ∧
    trs4.thumbsUpOnCount = 2 ∧ trs4.thumbsUpOffCount = 0 ∧ trs4.lastScaleLogAt = 0 ∧
    trc3.2 = [] := by
  obtain ⟨h1, h2, h3, h4, h5, h6, h7, h8, h9, h10, h11, h12, _⟩ := trs3_facts
  norm_num [trs4, trc3, loopTick, handPresentTick, trackingStage, hoverStage, stabilizeHover,
    applyHovered, pinchStage, thumbsStage, updatePinchStateDebounced, updateThumbsUpDebounced,
    thumbOnly_tOne, closeOnly, openFile, closeViewer, clearSelected,
    h1, h2, h3, h4, h5, h6, h7, h8, h9, h10, h11, h12,
    frameB_pinchDist, frameB_hs, frameB_raw,
    PINCH_ON, PINCH_OFF, PINCH_ON_FRAMES, PINCH_OFF_FRAMES, THUMBS_ON_FRAMES, THUMBS_OFF_FRAMES,
    HOVER_DWELL_MS, tOne_ne_close, close_ne_tOne, grid_ne_viewer, viewer_ne_grid,
    Option.some_ne_none, optNoneNeSome]

lemma trs5_facts :
    trs5.mode = Mode.viewer ∧ trs5.hoveredEl = some Target.closeBtn ∧
    trs5.hoverCandidate = some Target.closeBtn ∧
    trs5.hoverCandidateSince = 200 ∧ trs5.pinchClosed = false ∧ trs5.pinchOnCount = 0 ∧
    trs5.pinchOffCount = 0 ∧ trs5.wasPinching = false ∧ trs5.thumbsUpActive = false ∧
    trs5.thumbsUpOnCount = 3 ∧ trs5.thumbsUpOffCount = 0 ∧ trs5.lastScaleLogAt = 0 ∧
    trc4.2 = [] := by
  obtain ⟨h1, h2, h3, h4, h5, h6, h7, h8, h9, h10, h11, h12, _⟩ := trs4_facts
  norm_num [trs5, trc4, loopTick, handPresentTick, trackingStage, hoverStage, stabilizeHover,
    applyHovered, pinchStage, thumbsStage, updatePinchStateDebounced, updateThumbsUpDebounced,
    thumbOnly_tOne, closeOnly, openFile, closeViewer, clearSelected,
    h1, h2, h3, h4, h5, h6, h7, h8, h9, h10, h11, h12,
    frameB_pinchDist, frameB_hs, frameB_raw,
    PINCH_ON, PINCH_OFF, PINCH_ON_FRAMES, PINCH_OFF_FRAMES, THUMBS_ON_FRAMES, THUMBS_OFF_FRAMES,
    HOVER_DWELL_MS, tOne_ne_close, close_ne_tOne, grid_ne_viewer, viewer_ne_grid,
    Option.some_ne_none, optNoneNeSome]

lemma trs6_facts :
    trs6.mode = Mode.grid ∧ trs6.hoveredEl = none ∧
    trs6.hoverCandidate = some Target.closeBtn ∧
    trs6.hoverCandidateSince = 200 ∧ trs6.pinchClosed = false ∧ trs6.pinchOnCount = 0 ∧
    trs6.pinchOffCount = 0 ∧ trs6.wasPinching = false ∧ trs6.thumbsUpActive = true ∧
    trs6.thumbsUpOnCount = 0 ∧ trs6.thumbsUpOffCount = 0 ∧ trs6.lastScaleLogAt = 0 ∧
    trc5.2 = [Event.closeViewer] := by
  obtain ⟨h1, h2, h3, h4, h5, h6, h7, h8, h9, h10, h11, h12, _⟩ := trs5_facts
  norm_num [trs6, trc5, loopTick, handPresentTick, trackingStage, hoverStage, stabilizeHover,
    applyHovered, pinchStage, thumbsStage, updatePinchStateDebounced, updateThumbsUpDebounced,
    thumbOnly_tOne, closeOnly, openFile, closeViewer, clearSelected,
    h1, h2, h3, h4, h5, h6, h7, h8, h9, h10, h11, h12,
    frameB_pinchDist, frameB_hs, frameB_raw,
    PINCH_ON, PINCH_OFF, PINCH_ON_FRAMES, PINCH_OFF_FRAMES, THUMBS_ON_FRAMES, THUMBS_OFF_FRAMES,
    HOVER_DWELL_MS, tOne_ne_close, close_ne_tOne, grid_ne_viewer, viewer_ne_grid,
    Option.some_ne_none, optNoneNeSome]

lemma trs7_facts :
    trs7.mode = Mode.grid ∧ trs7.hoveredEl = none ∧ trs7.hoverCandidate = some tOne ∧
    trs7.hoverCandidateSince = 600 ∧ trs7.pinchClosed = false ∧ trs7.pinchOnCount = 1 ∧
    trs7.pinchOffCount = 0 ∧ trs7.wasPinching = false ∧ trs7.thumbsUpActive = true ∧
    trs7.thumbsUpOnCount = 0 ∧ trs7.thumbsUpOffCount = 0 ∧ trs7.lastScaleLogAt = 0 ∧
    trc6.2 = [] := by
  obtain ⟨h1, h2, h3, h4, h5, h6, h7, h8, h9, h10, h11, h12, _⟩ := trs6_facts
  norm_num [trs7, trc6, loopTick, handPresentTick, trackingStage, hoverStage, stabilizeHover,
    applyHovered, pinchStage, thumbsStage, updatePinchStateDebounced, updateThumbsUpDebounced,
    thumbOnly_tOne, closeOnly, openFile, closeViewer, clearSelected,
    h1, h2, h3, h4, h5, h6, h7, h8, h9, h10, h11, h12,
    frameC_pinchDist, frameC_hs, frameC_raw,
    PINCH_ON, PINCH_OFF, PINCH_ON_FRAMES, PINCH_OFF_FRAMES, THUMBS_ON_FRAMES, THUMBS_OFF_FRAMES,
    HOVER_DWELL_MS, tOne_ne_close, close_ne_tOne, grid_ne_viewer, viewer_ne_grid,
    Option.some_ne_none, optNoneNeSome]

lemma trc7_events : trc7.2 = [Event.openFile tOne, Event.closeViewer] := by
  obtain ⟨h1, h2, h3, h4, h5, h6, h7, h8, h9, h10, h11, h12, _⟩ := trs7_facts
  norm_num [trc7, loopTick, handPresentTick, trackingStage, hoverStage, stabilizeHover,
    applyHovered, pinchStage, thumbsStage, updatePinchStateDebounced, updateThumbsUpDebounced,
    thumbOnly_tOne, closeOnly, openFile, closeViewer, clearSelected,
    h1, h2, h3, h4, h5, h6, h7, h8, h9, h10, h11, h12,
    frameC_pinchDist, frameC_hs, frameC_raw,
    PINCH_ON, PINCH_OFF, PINCH_ON_FRAMES, PINCH_OFF_FRAMES, THUMBS_ON_FRAMES, THUMBS_OFF_FRAMES,
    HOVER_DWELL_MS, tOne_ne_close, close_ne_tOne, grid_ne_viewer, viewer_ne_grid,
    Option.some_ne_none, optNoneNeSome]

/-- Claim C2, counterexample: in the concrete eight-tick trace, Close fires
on tick 5 while the mode is viewer and the thumbs-up debounce is then
held active; the raw thumbs-up classifier is true on both subsequent
ticks (frameC), so the raw signal is never observed false after that
Close — yet tick 7, which reopens the viewer by pinch, emits a second
Close on the same tick. -/
theorem c2_counterexample :
    trs5.mode = Mode.viewer ∧ trc5.2 = [Event.closeViewer] ∧
    isThumbsUpRaw frameC ∧ trc6.2 = [] ∧
    trc7.2 = [Event.openFile tOne, Event.closeViewer] := by
  obtain ⟨h1, _, _, _, _, _, _, _, _, _, _, _, _⟩ := trs5_facts
  obtain ⟨_, _, _, _, _, _, _, _, _, _, _, _, hE5⟩ := trs6_facts
  obtain ⟨_, _, _, _, _, _, _, _, _, _, _, _, hE6⟩ := trs7_facts
  exact ⟨h1, hE5, frameC_raw, hE6, trc7_events⟩

/-- Claim C4, counterexample: on trace tick 5 the committed hover target
changes from the close button to none while the stored hover candidate
remains the close button throughout the tick — the committed target
changes to a value different from the candidate, and not through the
dwell commit (the close handler clears it directly). -/
theorem c4_counterexample :
    trs5.hoveredEl = some Target.closeBtn ∧
    trs5.hoverCandidate = some Target.closeBtn ∧
    trs6.hoveredEl = none ∧
    trs6.hoverCandidate = some Target.closeBtn ∧
    trs6.hoveredEl ≠ trs5.hoveredEl ∧
    trs6.hoveredEl ≠ trs5.hoverCandidate := by
  obtain ⟨_, h2, h3, _, _, _, _, _, _, _, _, _, _⟩ := trs5_facts
  obtain ⟨_, g2, g3, _, _, _, _, _, _, _, _, _, _⟩ := trs6_facts
  refine ⟨h2, h3, g2, g3, ?_, ?_⟩
  · rw [g2, h2]
    exact optNoneNeSome Target.closeBtn
  · rw [g2, h3]
    exact optNoneNeSome Target.closeBtn

/-! ## Witness instantiations -/

/-- Claim C1, witness: the pinch-edge theorem applied at the concrete state
wPinch and frame frameC. -/
theorem c1_witness :
    pinchStage wPinch frameC =
      ({ (updatePinchStateDebounced wPinch frameC).1 with
          selectedEl := some (Target.thumb "1"), mode := Mode.viewer, wasPinching := true },
       [Event.openFile (Target.thumb "1")]) :=
  (c1_pinch_edge wPinch frameC
      (by norm_num [updatePinchStateDebounced, wPinch, initialState, frameC_pinchDist,
        frameC_hs, PINCH_ON, PINCH_ON_FRAMES])
      rfl).1 "1" rfl rfl

/-- Claim C2, witness: the close-and-hold theorem applied at the concrete
viewer-mode state wClose and thumbs-up frame frameB. -/
theorem c2_witness :
    ((thumbsStage wClose frameB).1.mode = Mode.grid ∧
      (thumbsStage wClose frameB).1.thumbsUpActive = true ∧
      (thumbsStage wClose frameB).1.thumbsUpOnCount = 0 ∧
      (thumbsStage wClose frameB).1.thumbsUpOffCount = 0 ∧
      (thumbsStage wClose frameB).2 = [Event.closeViewer]) ∧
    updateThumbsUpDebounced wClose frameB = ({ wClose with thumbsUpOffCount := 0 }, true) :=
  ⟨c2_close_holds_debounce.1 wClose frameB rfl
      (by norm_num [updateThumbsUpDebounced, wClose, initialState, frameB_raw,
        THUMBS_OFF_FRAMES]),
   (c2_close_holds_debounce.2.2 wClose frameB rfl).1 frameB_raw⟩

/-- Claim C3, witness: the grace-window theorem applied at the concrete state
wHover, inside the window at 300 ms and past it at 400 ms. -/
theorem c3_witness :
    loopTick wHover none 1000 1000 none 300 = (wHover, []) ∧
    loopTick wHover none 1000 1000 none 400 =
      ({ wHover with
          hoveredEl := none, hoverCandidate := none,
          hoverCandidateSince :=
            if wHover.hoverCandidate = none then wHover.hoverCandidateSince else 400,
          pinchClosed := false, pinchOnCount := 0, pinchOffCount := 0,
          thumbsUpActive := false, thumbsUpOnCount := 0, thumbsUpOffCount := 0,
          wasPinching := false,
          xFilter := wHover.xFilter.reset, yFilter := wHover.yFilter.reset,
          scaleFilter := wHover.scaleFilter.reset }, []) :=
  ⟨c3_grace_window.1 wHover 1000 1000 none 300
      (by norm_num [wHover, initialState, HAND_LOST_GRACE_MS]),
   c3_grace_window.2 wHover 1000 1000 none 400
      (by norm_num [wHover, initialState, HAND_LOST_GRACE_MS])⟩

lemma wHover_lost_hoveredEl :
    (loopTick wHover none 1000 1000 none 400).1.hoveredEl = none := by
  norm_num [loopTick, handAbsentTick, stabilizeHover, applyHovered, resetAllFiltersAndStates,
    wHover, initialState, HAND_LOST_GRACE_MS, HOVER_DWELL_MS, Option.some_ne_none,
    optNoneNeSome]

/-- Claim C4, witness: the hover-change theorem applied at the concrete state
wHover on a hand-absent tick past the grace window, where the committed
hover target changes (to none). -/
theorem c4_witness :
    (loopTick wHover none 1000 1000 none 400).1.hoveredEl ≠ wHover.hoveredEl ∧
    ((loopTick wHover none 1000 1000 none 400).1.hoveredEl = none ∨
      ((loopTick wHover none 1000 1000 none 400).1.hoveredEl = wHover.hoverCandidate ∧
        400 - wHover.hoverCandidateSince ≥ HOVER_DWELL_MS)) := by
  have hchange : (loopTick wHover none 1000 1000 none 400).1.hoveredEl ≠ wHover.hoveredEl := by
    rw [wHover_lost_hoveredEl]
    exact optNoneNeSome tOne
  exact ⟨hchange, c4_hover_commit wHover none 1000 1000 none 400 hchange⟩

/-- Claim C10, witness: the level-close theorem applied in grid mode at
initialState with frameA, and in viewer mode at wClose with frameB. -/
theorem c10_witness :
    thumbsStage initialState frameA = ((updateThumbsUpDebounced initialState frameA).1, []) ∧
    ((thumbsStage wClose frameB).2 = [Event.closeViewer] ∧
      (thumbsStage wClose frameB).1.mode = Mode.grid) :=
  ⟨c10_close_tests_level.1 initialState frameA rfl,
   c10_close_tests_level.2.1 wClose frameB rfl
      (by norm_num [updateThumbsUpDebounced, wClose, initialState, frameB_raw,
        THUMBS_OFF_FRAMES])⟩

end GestureFiles
